import Mathlib

/-
Verification of the deployment-hook pipeline, conditional resource gate and
config mirror of the aws-ebs-csi-driver-operator (pkg/operator/starter.go).

The Kubernetes objects are embedded shallowly: a Go `*appsv1.Deployment`
mutated in place becomes a Lean value threaded through the hook, and a hook
`func(*opv1.OperatorSpec, *appsv1.Deployment) error` becomes a function
`Deployment → Deployment × Option String` whose first component is the state
of the deployment at the moment the hook returns (so a hook that mutates
before erroring is visible), and whose second component is the returned
error, `none` standing for Go's `nil`.  Cache listers become functions from
an object name to a `GetResult`.
-/

set_option autoImplicit false

namespace AwsEbsCsiOperator

/-! ## Constants (starter.go, `const` block) -/

def defaultNamespace : String := "openshift-cluster-csi-drivers"

def cloudConfigNamespace : String := "openshift-config-managed"

def cloudConfigName : String := "kube-cloud-config"

def caBundleKey : String := "ca-bundle.pem"

def infrastructureName : String := "cluster"

def hypershiftPriorityClass : String := "hypershift-control-plane"

/-! ## Data model: the slice of the Kubernetes API types the hooks touch -/

/-- `corev1.EnvVar`. -/
structure EnvVar where
  name : String
  value : String
deriving DecidableEq, Repr

/-- `corev1.VolumeMount`. -/
structure VolumeMount where
  name : String
  mountPath : String
  readOnly : Bool
deriving DecidableEq, Repr

/-- `corev1.StorageMedium` (only the values the operator uses). -/
inductive StorageMedium where
  | default
  | memory
deriving DecidableEq, Repr

/-- `corev1.VolumeSource`: exactly one member is set in the Go struct, which
an inductive captures; sources the operator never constructs or inspects are
collapsed into `other`. -/
inductive VolumeSource where
  | configMap (name : String)
  | secret (secretName : String)
  | emptyDir (medium : StorageMedium)
  | other (description : String)
deriving DecidableEq, Repr

/-- `corev1.Volume`. -/
structure Volume where
  name : String
  source : VolumeSource
deriving DecidableEq, Repr

/-- `corev1.Container`, restricted to the fields starter.go reads or writes. -/
structure Container where
  name : String
  image : String := ""
  imagePullPolicy : String := ""
  command : List String := []
  args : List String := []
  env : List EnvVar := []
  volumeMounts : List VolumeMount := []
  resourceRequests : List (String × String) := []
deriving DecidableEq, Repr

/-- `corev1.PodSpec`, restricted to the fields starter.go touches. -/
structure PodSpec where
  containers : List Container := []
  volumes : List Volume := []
  priorityClassName : String := ""
deriving DecidableEq, Repr

/-- `appsv1.Deployment`: `nsName` is the object's metadata namespace,
`podSpec` is `Spec.Template.Spec`, `replicas` is `Spec.Replicas`
(a nullable int32 pointer in Go, hence `Option Int`). -/
structure Deployment where
  nsName : String := ""
  replicas : Option Int := none
  podSpec : PodSpec := {}
deriving DecidableEq, Repr

/-- `corev1.ConfigMap`: the name plus the string `Data` map, as an
association list (first binding wins, matching Go map lookup on distinct
keys; the operator only ever reads one fixed key). -/
structure ConfigMap where
  name : String
  data : List (String × String) := []
deriving DecidableEq, Repr

/-- Result of a cache lister `Get` (or of a clientset `Get`): Go returns
`(obj, nil)`, a not-found error, or some other error. -/
inductive GetResult (α : Type) where
  | found (obj : α)
  | notFound
  | failed (msg : String)
deriving DecidableEq, Repr

/-- `configv1.AWSResourceTag`. -/
structure AWSResourceTag where
  key : String
  value : String
deriving DecidableEq, Repr

/-- `configv1.AWSServiceEndpoint`. -/
structure AWSServiceEndpoint where
  name : String
  url : String
deriving DecidableEq, Repr

/-- `configv1.AWSPlatformStatus`, restricted to the fields starter.go reads. -/
structure AWSPlatformStatus where
  region : String := ""
  resourceTags : List AWSResourceTag := []
  serviceEndpoints : List AWSServiceEndpoint := []
deriving DecidableEq, Repr

/-- `configv1.PlatformStatus`: the `AWS` member is a nullable pointer. -/
structure PlatformStatus where
  aws : Option AWSPlatformStatus := none
deriving DecidableEq, Repr

/-- `configv1.Infrastructure`: `platformStatus` models the nullable
`Status.PlatformStatus` pointer. -/
structure Infrastructure where
  platformStatus : Option PlatformStatus := none
deriving DecidableEq, Repr

/-- A ConfigMap lister scoped to one namespace: name ↦ lookup result. -/
def ConfigMapLister : Type := String → GetResult ConfigMap

/-- The cluster-scoped Infrastructure lister: name ↦ lookup result. -/
def InfraLister : Type := String → GetResult Infrastructure

/-! ## `customAWSCABundle` (starter.go lines 430-449) -/

/-- The ConfigMap name `customAWSCABundle` looks up: `cloudConfigName`
on standalone, `"user-ca-bundle"` under Hypershift. -/
def caBundleConfigName (isHypershift : Bool) : String :=
  if isHypershift then "user-ca-bundle" else cloudConfigName

/-- `customAWSCABundle`: returns the name of the ConfigMap holding the
custom CA bundle, `""` when none is configured, or an error. -/
def customAWSCABundle (isHypershift : Bool) (cloudConfigLister : ConfigMapLister) :
    Except String String :=
  let configName := caBundleConfigName isHypershift
  match cloudConfigLister configName with
  | .notFound => .ok ""
  | .failed msg => .error ("failed to get the " ++ configName ++ " ConfigMap: " ++ msg)
  | .found cloudConfigCM =>
    match cloudConfigCM.data.lookup caBundleKey with
    | none => .ok ""
    | some _ => .ok configName

/-! ## `withCustomAWSCABundle` (starter.go lines 324-363) -/

/-- The container loop of `withCustomAWSCABundle`: walk the containers, and
at the first one named `"csi-driver"` append the `AWS_CA_BUNDLE` env var and
the read-only `ca-bundle` mount and stop (the Go loop returns nil there);
`none` when no such container exists (the Go function then errors). -/
def addCABundleToDriver : List Container → Option (List Container)
  | [] => none
  | c :: cs =>
    if c.name = "csi-driver" then
      some ({ c with
        env := c.env ++ [{ name := "AWS_CA_BUNDLE", value := "/etc/ca/ca-bundle.pem" }],
        volumeMounts := c.volumeMounts ++
          [{ name := "ca-bundle", mountPath := "/etc/ca", readOnly := true }] } :: cs)
    else
      match addCABundleToDriver cs with
      | some cs1 => some (c :: cs1)
      | none => none

/-- `withCustomAWSCABundle`: no-op when no custom bundle is configured;
otherwise append the `ca-bundle` volume first, then wire it into the
`csi-driver` container, erroring (with the volume already appended) when
that container is missing. -/
def withCustomAWSCABundle (isHypershift : Bool) (cloudConfigLister : ConfigMapLister)
    (deployment : Deployment) : Deployment × Option String :=
  match customAWSCABundle isHypershift cloudConfigLister with
  | .error msg =>
    (deployment, some ("could not determine if a custom CA bundle is in use: " ++ msg))
  | .ok configName =>
    if configName = "" then
      (deployment, none)
    else
      let withVol : Deployment :=
        { deployment with podSpec :=
          { deployment.podSpec with volumes := deployment.podSpec.volumes ++
            [{ name := "ca-bundle", source := VolumeSource.configMap configName }] } }
      match addCABundleToDriver withVol.podSpec.containers with
      | some cs =>
        ({ withVol with podSpec := { withVol.podSpec with containers := cs } }, none)
      | none =>
        (withVol, some "could not use custom CA bundle because the csi-driver container is missing from the deployment")

/-! ## `withCustomEndPoint` (starter.go lines 365-398) -/

/-- The endpoint scan of `withCustomEndPoint`: the Go loop overwrites the
accumulator on every entry named `"ec2"`, so the last match wins. -/
def ec2EndPointOf (serviceEndPoints : List AWSServiceEndpoint) : String :=
  serviceEndPoints.foldl
    (fun acc serviceEndPoint =>
      if serviceEndPoint.name = "ec2" then serviceEndPoint.url else acc) ""

/-- The container loop of `withCustomEndPoint`: append the env var to the
first `"csi-driver"` container only (the Go loop returns nil right after). -/
def appendEnvToFirstCsiDriver (e : EnvVar) : List Container → List Container
  | [] => []
  | c :: cs =>
    if c.name = "csi-driver" then { c with env := c.env ++ [e] } :: cs
    else c :: appendEnvToFirstCsiDriver e cs

/-- `withCustomEndPoint`: inject `AWS_EC2_ENDPOINT` from the infrastructure
service-endpoint list; silent no-op when the platform status or the `ec2`
endpoint is absent; missing container is also a silent no-op here. -/
def withCustomEndPoint (infraLister : InfraLister) (deployment : Deployment) :
    Deployment × Option String :=
  match infraLister infrastructureName with
  | .notFound => (deployment, some "infrastructure not found")
  | .failed msg => (deployment, some msg)
  | .found infra =>
    match infra.platformStatus with
    | none => (deployment, none)
    | some platformStatus =>
      match platformStatus.aws with
      | none => (deployment, none)
      | some aws =>
        let ec2EndPoint := ec2EndPointOf aws.serviceEndpoints
        if ec2EndPoint = "" then
          (deployment, none)
        else
          let cs := appendEnvToFirstCsiDriver
            { name := "AWS_EC2_ENDPOINT", value := ec2EndPoint }
            deployment.podSpec.containers
          ({ deployment with podSpec :=
            { deployment.podSpec with containers := cs } }, none)

/-! ## `withAWSRegion` (starter.go lines 632-660) -/

/-- The container loop of `withAWSRegion` and `withCustomTags` has no early
return: every container named `"csi-driver"` receives the new env var. -/
def appendEnvToCsiDriver (e : EnvVar) (cs : List Container) : List Container :=
  cs.map fun c => if c.name = "csi-driver" then { c with env := c.env ++ [e] } else c

/-- `withAWSRegion`: inject `AWS_REGION` from the infrastructure platform
status; silent no-op when the platform status or the region is absent. -/
def withAWSRegion (infraLister : InfraLister) (deployment : Deployment) :
    Deployment × Option String :=
  match infraLister infrastructureName with
  | .notFound => (deployment, some "infrastructure not found")
  | .failed msg => (deployment, some msg)
  | .found infra =>
    match infra.platformStatus with
    | none => (deployment, none)
    | some platformStatus =>
      match platformStatus.aws with
      | none => (deployment, none)
      | some aws =>
        if aws.region = "" then
          (deployment, none)
        else
          let cs := appendEnvToCsiDriver
            { name := "AWS_REGION", value := aws.region }
            deployment.podSpec.containers
          ({ deployment with podSpec :=
            { deployment.podSpec with containers := cs } }, none)

/-! ## `withCustomTags` (starter.go lines 451-485) -/

/-- `--extra-tags=<key1>=<value1>,<key2>=<value2>,...` as built by
`withCustomTags` (`fmt.Sprintf` over the pairs, `strings.Join` with `,`). -/
def extraTagsArgument (userTags : List AWSResourceTag) : String :=
  "--extra-tags=" ++ String.intercalate (",") (userTags.map fun t => t.key ++ "=" ++ t.value)

/-- Append one argument to every container named `"csi-driver"`. -/
def appendArgToCsiDriver (arg : String) (cs : List Container) : List Container :=
  cs.map fun c => if c.name = "csi-driver" then { c with args := c.args ++ [arg] } else c

/-- `withCustomTags`: append the `--extra-tags=` argument built from the
infrastructure resource tags to every `csi-driver` container; silent no-op
when the platform status is absent or the tag list is empty. -/
def withCustomTags (infraLister : InfraLister) (deployment : Deployment) :
    Deployment × Option String :=
  match infraLister infrastructureName with
  | .notFound => (deployment, some "infrastructure not found")
  | .failed msg => (deployment, some msg)
  | .found infra =>
    match infra.platformStatus with
    | none => (deployment, none)
    | some platformStatus =>
      match platformStatus.aws with
      | none => (deployment, none)
      | some aws =>
        if aws.resourceTags.isEmpty then
          (deployment, none)
        else
          let cs := appendArgToCsiDriver (extraTagsArgument aws.resourceTags)
            deployment.podSpec.containers
          ({ deployment with podSpec :=
            { deployment.podSpec with containers := cs } }, none)

/-! ## `withNamespaceDeploymentHook` (starter.go lines 497-502) -/

/-- `withNamespaceDeploymentHook`: overwrite the deployment namespace. -/
def withNamespaceDeploymentHook (nsName : String) (deployment : Deployment) :
    Deployment × Option String :=
  ({ deployment with nsName := nsName }, none)

/-! ## `withHypershiftReplicasHook` (starter.go lines 504-515) -/

/-- The `isHypershift = true` branch of `withHypershiftReplicasHook`: force
a single replica.  (The standalone branch delegates to the external
library-go `WithReplicasHook`, which is outside this repository.) -/
def withHypershiftReplicasHook (deployment : Deployment) : Deployment × Option String :=
  ({ deployment with replicas := some 1 }, none)

/-! ## `withHypershiftDeploymentHook` (starter.go lines 517-630) -/

/-- The `hosted-kubeconfig` secret volume injected under Hypershift. -/
def hostedKubeconfigVolume : Volume :=
  { name := "hosted-kubeconfig", source := VolumeSource.secret "admin-kubeconfig" }

/-- The bound-sa-token loop: every volume named `"bound-sa-token"` has its
source replaced by a memory-backed EmptyDir (the Go loop has no break). -/
def replaceBoundSaToken (vols : List Volume) : List Volume :=
  vols.map fun v =>
    if v.name = "bound-sa-token" then
      { v with source := VolumeSource.emptyDir StorageMedium.memory }
    else v

/-- The metrics-serving-cert loop: remove the first volume named
`"metrics-serving-cert"` and break; later ones survive. -/
def removeFirstMetricsServingCert : List Volume → List Volume
  | [] => []
  | v :: vs =>
    if v.name = "metrics-serving-cert" then vs
    else v :: removeFirstMetricsServingCert vs

/-- The container names dropped under Hypershift (the `switch` denylist). -/
def hypershiftRemovedSidecars : List String :=
  ["driver-kube-rbac-proxy", "provisioner-kube-rbac-proxy", "attacher-kube-rbac-proxy",
   "resizer-kube-rbac-proxy", "snapshotter-kube-rbac-proxy"]

/-- The CSI sidecars that receive the hosted kubeconfig (the allowlist). -/
def hypershiftKubeconfigSidecars : List String :=
  ["csi-provisioner", "csi-attacher", "csi-snapshotter", "csi-resizer"]

/-- The `KUBECONFIG` env var appended to each allowlisted sidecar. -/
def hostedKubeconfigEnvVar : EnvVar :=
  { name := "KUBECONFIG", value := "/etc/hosted-kubernetes/kubeconfig" }

/-- The read-only hosted-kubeconfig mount appended to each allowlisted sidecar. -/
def hostedKubeconfigMount : VolumeMount :=
  { name := "hosted-kubeconfig", mountPath := "/etc/hosted-kubernetes", readOnly := true }

/-- The kubeconfig flag/env/mount triple appended to each allowlisted sidecar. -/
def injectHostedKubeconfig (c : Container) : Container :=
  { c with
    args := c.args ++ ["--kubeconfig=$(KUBECONFIG)"],
    env := c.env ++ [hostedKubeconfigEnvVar],
    volumeMounts := c.volumeMounts ++ [hostedKubeconfigMount] }

/-- The token-minter sidecar appended under Hypershift. -/
def tokenMinterContainer (hypershiftImage : String) : Container :=
  { name := "token-minter",
    image := hypershiftImage,
    imagePullPolicy := "IfNotPresent",
    command := ["/usr/bin/control-plane-operator", "token-minter"],
    args := ["--service-account-namespace=openshift-cluster-csi-drivers",
             "--service-account-name=aws-ebs-csi-driver-controller-sa",
             "--token-audience=openshift",
             "--token-file=/var/run/secrets/openshift/serviceaccount/token",
             "--kubeconfig=/etc/hosted-kubernetes/kubeconfig"],
    resourceRequests := [("cpu", "10m"), ("memory", "10Mi")],
    volumeMounts :=
      [{ name := "bound-sa-token",
         mountPath := "/var/run/secrets/openshift/serviceaccount", readOnly := false },
       { name := "hosted-kubeconfig",
         mountPath := "/etc/hosted-kubernetes", readOnly := true }] }

/-- The container pipeline of `withHypershiftDeploymentHook`: filter out the
denylisted kube-rbac-proxy sidecars, wire the hosted kubeconfig into the
allowlisted CSI sidecars, append the token-minter sidecar. -/
def hostedContainers (hypershiftImage : String) (cs : List Container) : List Container :=
  ((cs.filter fun c => c.name ∉ hypershiftRemovedSidecars).map fun c =>
    if c.name ∈ hypershiftKubeconfigSidecars then injectHostedKubeconfig c else c) ++
    [tokenMinterContainer hypershiftImage]

/-- The volume pipeline of `withHypershiftDeploymentHook`: append the
hosted-kubeconfig volume, rewrite every bound-sa-token source, then drop the
first metrics-serving-cert volume. -/
def hostedVolumes (vols : List Volume) : List Volume :=
  removeFirstMetricsServingCert (replaceBoundSaToken (vols ++ [hostedKubeconfigVolume]))

/-- `withHypershiftDeploymentHook`: identity on standalone; under Hypershift
set the priority class, append the hosted-kubeconfig volume, rewrite the
bound-sa-token volume source, drop the first metrics-serving-cert volume,
drop the kube-rbac-proxy sidecars, wire the hosted kubeconfig into the CSI
sidecars, and append the token-minter sidecar.  Never errors. -/
def withHypershiftDeploymentHook (isHypershift : Bool) (hypershiftImage : String)
    (deployment : Deployment) : Deployment × Option String :=
  if isHypershift then
    ({ deployment with podSpec :=
      { containers := hostedContainers hypershiftImage deployment.podSpec.containers,
        volumes := hostedVolumes deployment.podSpec.volumes,
        priorityClassName := hypershiftPriorityClass } }, none)
  else
    (deployment, none)

/-! ## The volumesnapshotclass conditional resource gate
(starter.go lines 208-226 supply the two predicates; the evaluation engine
is library-go's conditional static resources controller, outside src/) -/

/-- The gate decision for one reconciliation tick. -/
inductive GateDecision where
  | install
  | remove
  | noop
deriving DecidableEq, Repr

/-- Modelled from the spec: the conditional static resources controller
(library-go, not part of this repository) evaluates the gate each tick as
`evaluate() -> {Install, Remove, NoOp}` from the two predicates, with
`Remove > Install` precedence when both hold. -/
def gateEvaluate (installPredicate deletePredicate : Bool) : GateDecision :=
  if deletePredicate then GateDecision.remove
  else if installPredicate then GateDecision.install
  else GateDecision.noop

/-- The install predicate passed for `volumesnapshotclass.yaml`: the Go
closure performs a clientset `Get` of the `volumesnapshotclasses` CRD and
returns `err == nil`; its input here is the outcome of that call. -/
def volumeSnapshotClassInstallPredicate (crdGet : GetResult Unit) : Bool :=
  match crdGet with
  | .found _ => true
  | .notFound => false
  | .failed _ => false

/-- The delete predicate passed for `volumesnapshotclass.yaml`:
`func() bool { return false }`. -/
def volumeSnapshotClassDeletePredicate (_ : Unit) : Bool :=
  false

/-! ## The custom CA bundle config mirror
(starter.go lines 400-428 configure the locations; the sync engine is
library-go's resource sync controller, outside src/) -/

/-- A (namespace, name) pair, as in `resourcesynccontroller.ResourceLocation`. -/
structure ResourceLocation where
  nsName : String
  name : String
deriving DecidableEq, Repr

/-- The mirror source configured by `newCustomAWSBundleSyncer`. -/
def awsBundleSyncSource : ResourceLocation :=
  { nsName := cloudConfigNamespace, name := cloudConfigName }

/-- The mirror destination configured by `newCustomAWSBundleSyncer`. -/
def awsBundleSyncDestination (destinationNamespace : String) : ResourceLocation :=
  { nsName := destinationNamespace, name := cloudConfigName }

/-- Modelled from the spec: one sync pass of library-go's resource sync
controller (not part of this repository).  The destination state after the
pass is determined by the source alone: when the source ConfigMap exists the
destination is made equal to it, and when the source is absent the
destination is deleted. -/
def configMirrorSyncPass (source : Option ConfigMap) (_dest : Option ConfigMap) :
    Option ConfigMap :=
  match source with
  | some cm => some cm
  | none => none

/-- A run of the mirror: fold the sync passes over a trace of observed
source states, starting from an initial destination state. -/
def runConfigMirror (initialDest : Option ConfigMap)
    (sourceTrace : List (Option ConfigMap)) : Option ConfigMap :=
  sourceTrace.foldl (fun dest source => configMirrorSyncPass source dest) initialDest

/-! ## Helper lemmas -/

theorem foldl_ec2_no_match :
    ∀ (serviceEndPoints : List AWSServiceEndpoint) (acc : String),
      (∀ ep ∈ serviceEndPoints, ep.name ≠ "ec2") →
      serviceEndPoints.foldl
        (fun a serviceEndPoint =>
          if serviceEndPoint.name = "ec2" then serviceEndPoint.url else a) acc = acc := by
  intro serviceEndPoints
  induction serviceEndPoints with
  | nil => intro acc _; rfl
  | cons e rest ih =>
    intro acc h
    have he : e.name ≠ "ec2" := h e (List.mem_cons_self e rest)
    simp only [List.foldl_cons, if_neg he]
    exact ih acc fun x hx => h x (List.mem_cons_of_mem _ hx)

theorem ec2EndPointOf_eq_empty {serviceEndPoints : List AWSServiceEndpoint}
    (h : ∀ ep ∈ serviceEndPoints, ep.name ≠ "ec2") :
    ec2EndPointOf serviceEndPoints = "" :=
  foldl_ec2_no_match serviceEndPoints "" h

theorem runConfigMirror_none_of_source_none :
    ∀ (sourceTrace : List (Option ConfigMap)),
      (∀ s ∈ sourceTrace, s = none) → runConfigMirror none sourceTrace = none := by
  intro sourceTrace
  induction sourceTrace with
  | nil => intro _; rfl
  | cons s rest ih =>
    intro h
    have hs : s = none := h s (List.mem_cons_self s rest)
    subst hs
    exact ih fun x hx => h x (List.mem_cons_of_mem _ hx)

/-! ## C5 -/

/-- C5: whenever the CRD probe for `volumesnapshotclasses.snapshot.storage.k8s.io`
returns an error or reports the CRD absent, the install predicate passed to the
conditional static resources controller evaluates to false, so the gate
decision for `volumesnapshotclass.yaml` is not `install`. -/
theorem C5_gate_never_install_on_probe_failure (crdGet : GetResult Unit)
    (h : crdGet = GetResult.notFound ∨ ∃ msg, crdGet = GetResult.failed msg) :
    volumeSnapshotClassInstallPredicate crdGet = false ∧
    gateEvaluate (volumeSnapshotClassInstallPredicate crdGet)
      (volumeSnapshotClassDeletePredicate ()) ≠ GateDecision.install := by
  rcases h with h | ⟨msg, h⟩ <;> subst h <;>
    exact ⟨rfl, by simp [gateEvaluate, volumeSnapshotClassInstallPredicate,
      volumeSnapshotClassDeletePredicate]⟩

theorem C5_gate_never_install_on_probe_failure_witness :
    volumeSnapshotClassInstallPredicate GetResult.notFound = false ∧
    gateEvaluate (volumeSnapshotClassInstallPredicate GetResult.notFound)
      (volumeSnapshotClassDeletePredicate ()) ≠ GateDecision.install :=
  C5_gate_never_install_on_probe_failure GetResult.notFound (Or.inl rfl)

/-! ## C6 -/

/-- C6: the delete predicate wired for `volumesnapshotclass.yaml` is the
constant-false function, so whatever the install predicate evaluates to, the
gate decision is never `remove`. -/
theorem C6_gate_never_remove (u : Unit) (installPredicate : Bool) :
    volumeSnapshotClassDeletePredicate u = false ∧
    gateEvaluate installPredicate (volumeSnapshotClassDeletePredicate u) ≠
      GateDecision.remove := by
  cases u
  cases installPredicate <;> exact ⟨rfl, by decide⟩

/-! ## C8 -/

/-- C8: every deployment hook is deterministic: on equal input deployments and
pointwise-equal lister snapshots, each hook produces equal outputs (deployment
and error alike). -/
theorem C8_hooks_deterministic (isHypershift : Bool) (hypershiftImage nsName : String)
    (cl cl1 : ConfigMapLister) (il il1 : InfraLister) (d d1 : Deployment)
    (hcl : ∀ n, cl n = cl1 n) (hil : ∀ n, il n = il1 n) (hd : d = d1) :
    withHypershiftDeploymentHook isHypershift hypershiftImage d =
      withHypershiftDeploymentHook isHypershift hypershiftImage d1 ∧
    withCustomAWSCABundle isHypershift cl d = withCustomAWSCABundle isHypershift cl1 d1 ∧
    withAWSRegion il d = withAWSRegion il1 d1 ∧
    withCustomTags il d = withCustomTags il1 d1 ∧
    withCustomEndPoint il d = withCustomEndPoint il1 d1 ∧
    withNamespaceDeploymentHook nsName d = withNamespaceDeploymentHook nsName d1 := by
  have h1 : cl = cl1 := funext hcl
  have h2 : il = il1 := funext hil
  subst h1
  subst h2
  subst hd
  exact ⟨rfl, rfl, rfl, rfl, rfl, rfl⟩

def witnessConfigMapLister : ConfigMapLister := fun _ => GetResult.notFound

def witnessInfraLister : InfraLister := fun _ => GetResult.notFound

def witnessImage : String := "img"

def witnessNamespace : String := "clusters-test"

theorem C8_hooks_deterministic_witness :
    withHypershiftDeploymentHook true witnessImage {} =
      withHypershiftDeploymentHook true witnessImage {} ∧
    withCustomAWSCABundle true witnessConfigMapLister {} =
      withCustomAWSCABundle true witnessConfigMapLister {} ∧
    withAWSRegion witnessInfraLister {} = withAWSRegion witnessInfraLister {} ∧
    withCustomTags witnessInfraLister {} = withCustomTags witnessInfraLister {} ∧
    withCustomEndPoint witnessInfraLister {} = withCustomEndPoint witnessInfraLister {} ∧
    withNamespaceDeploymentHook witnessNamespace {} =
      withNamespaceDeploymentHook witnessNamespace {} :=
  C8_hooks_deterministic true witnessImage witnessNamespace
    witnessConfigMapLister witnessConfigMapLister witnessInfraLister witnessInfraLister
    {} {} (fun _ => rfl) (fun _ => rfl) rfl

/-! ## C9 -/

/-- C9: the config mirror configured by `newCustomAWSBundleSyncer` replicates
`kube-cloud-config` one-directionally from `openshift-config-managed` into the
operator namespace: an existing source makes the destination equal to it, an
absent source deletes the destination on the next pass, and a source that
never exists never creates a destination. -/
theorem C9_config_mirror (destinationNamespace : String) (cm : ConfigMap)
    (dest dest1 : Option ConfigMap) (sourceTrace : List (Option ConfigMap))
    (hTrace : ∀ s ∈ sourceTrace, s = none) :
    configMirrorSyncPass (some cm) dest = some cm ∧
    configMirrorSyncPass none dest1 = none ∧
    runConfigMirror none sourceTrace = none ∧
    awsBundleSyncSource =
      { nsName := "openshift-config-managed", name := "kube-cloud-config" } ∧
    awsBundleSyncDestination destinationNamespace =
      { nsName := destinationNamespace, name := "kube-cloud-config" } :=
  ⟨rfl, rfl, runConfigMirror_none_of_source_none sourceTrace hTrace, rfl, rfl⟩

def witnessConfigMap : ConfigMap :=
  { name := "kube-cloud-config", data := [("ca-bundle.pem", "PEM")] }

theorem C9_config_mirror_witness :
    configMirrorSyncPass (some witnessConfigMap) none = some witnessConfigMap ∧
    configMirrorSyncPass none (some witnessConfigMap) = none ∧
    runConfigMirror none [none, none] = none ∧
    awsBundleSyncSource =
      { nsName := "openshift-config-managed", name := "kube-cloud-config" } ∧
    awsBundleSyncDestination defaultNamespace =
      { nsName := defaultNamespace, name := "kube-cloud-config" } :=
  C9_config_mirror defaultNamespace witnessConfigMap none (some witnessConfigMap)
    [none, none] (by decide)

/-! ## C4 -/

/-- C4: hooks whose underlying optional data is absent silently no-op:
`withAWSRegion`, `withCustomTags` and `withCustomEndPoint` return nil and
leave the deployment unchanged when the infrastructure has no AWS platform
status, an empty region, an empty tag list, or no `ec2` service endpoint,
and `withCustomAWSCABundle` does the same when the cloud-config ConfigMap is
absent. -/
theorem C4_absent_data_hooks_noop (d : Deployment) :
    (∀ (il : InfraLister) (infra : Infrastructure),
      il infrastructureName = GetResult.found infra →
      (infra.platformStatus = none ∨
        ∃ ps, infra.platformStatus = some ps ∧ ps.aws = none) →
      withAWSRegion il d = (d, none) ∧ withCustomTags il d = (d, none) ∧
        withCustomEndPoint il d = (d, none)) ∧
    (∀ (il : InfraLister) (infra : Infrastructure) (ps : PlatformStatus)
        (aws : AWSPlatformStatus),
      il infrastructureName = GetResult.found infra →
      infra.platformStatus = some ps → ps.aws = some aws →
      (aws.region = "" → withAWSRegion il d = (d, none)) ∧
      (aws.resourceTags = [] → withCustomTags il d = (d, none)) ∧
      ((∀ ep ∈ aws.serviceEndpoints, ep.name ≠ "ec2") →
        withCustomEndPoint il d = (d, none))) ∧
    (∀ (isHypershift : Bool) (cl : ConfigMapLister),
      cl (caBundleConfigName isHypershift) = GetResult.notFound →
      withCustomAWSCABundle isHypershift cl d = (d, none)) := by
  refine ⟨?_, ?_, ?_⟩
  · intro il infra hfound habsent
    rcases habsent with hnone | ⟨ps, hps, hnil⟩
    · exact ⟨by simp [withAWSRegion, hfound, hnone],
        by simp [withCustomTags, hfound, hnone],
        by simp [withCustomEndPoint, hfound, hnone]⟩
    · exact ⟨by simp [withAWSRegion, hfound, hps, hnil],
        by simp [withCustomTags, hfound, hps, hnil],
        by simp [withCustomEndPoint, hfound, hps, hnil]⟩
  · intro il infra ps aws hfound hps haws
    refine ⟨?_, ?_, ?_⟩
    · intro hregion
      simp [withAWSRegion, hfound, hps, haws, hregion]
    · intro htags
      simp [withCustomTags, hfound, hps, haws, htags]
    · intro hep
      have hec2 : ec2EndPointOf aws.serviceEndpoints = "" := ec2EndPointOf_eq_empty hep
      simp [withCustomEndPoint, hfound, hps, haws, hec2]
  · intro isHypershift cl hnotFound
    simp [withCustomAWSCABundle, customAWSCABundle, hnotFound]

def witnessEmptyInfraLister : InfraLister := fun _ => GetResult.found {}

theorem C4_absent_data_hooks_noop_witness :
    (withAWSRegion witnessEmptyInfraLister {} = ({}, none) ∧
      withCustomTags witnessEmptyInfraLister {} = ({}, none) ∧
      withCustomEndPoint witnessEmptyInfraLister {} = ({}, none)) ∧
    withCustomAWSCABundle false witnessConfigMapLister {} = ({}, none) :=
  ⟨(C4_absent_data_hooks_noop {}).1 witnessEmptyInfraLister {} rfl (Or.inl rfl),
   (C4_absent_data_hooks_noop {}).2.2 false witnessConfigMapLister rfl⟩

/-! ## C7 -/

theorem removeFirstMSC_of_absent {l : List Volume}
    (h : ∀ v ∈ l, v.name ≠ "metrics-serving-cert") :
    removeFirstMetricsServingCert l = l := by
  induction l with
  | nil => rfl
  | cons v vs ih =>
    have hv : v.name ≠ "metrics-serving-cert" := h v (List.mem_cons_self v vs)
    simp only [removeFirstMetricsServingCert, if_neg hv]
    rw [ih fun x hx => h x (List.mem_cons_of_mem _ hx)]

theorem removeFirstMSC_decomp {l : List Volume}
    (h : ∃ v ∈ l, v.name = "metrics-serving-cert") :
    ∃ pre v post, l = pre ++ v :: post ∧ v.name = "metrics-serving-cert" ∧
      (∀ u ∈ pre, u.name ≠ "metrics-serving-cert") ∧
      removeFirstMetricsServingCert l = pre ++ post := by
  induction l with
  | nil =>
    rcases h with ⟨v, hv, _⟩
    cases hv
  | cons w vs ih =>
    by_cases hw : w.name = "metrics-serving-cert"
    · refine ⟨[], w, vs, rfl, hw, ?_, ?_⟩
      · intro u hu
        cases hu
      · simp only [removeFirstMetricsServingCert, if_pos hw]
        rfl
    · have h2 : ∃ v ∈ vs, v.name = "metrics-serving-cert" := by
        rcases h with ⟨v, hv, hname⟩
        cases List.mem_cons.mp hv with
        | inl he => rw [he] at hname; exact absurd hname hw
        | inr hm => exact ⟨v, hm, hname⟩
      rcases ih h2 with ⟨pre, v, post, hl, hname, hpre, hrem⟩
      refine ⟨w :: pre, v, post, ?_, hname, ?_, ?_⟩
      · rw [hl]
        rfl
      · intro u hu
        cases List.mem_cons.mp hu with
        | inl he => rw [he]; exact hw
        | inr hm => exact hpre u hm
      · simp only [removeFirstMetricsServingCert, if_neg hw]
        rw [hrem]
        rfl

theorem mem_removeFirstMSC {v : Volume} {l : List Volume}
    (hm : v ∈ l) (hname : v.name ≠ "metrics-serving-cert") :
    v ∈ removeFirstMetricsServingCert l := by
  induction l with
  | nil => cases hm
  | cons w ws ih =>
    simp only [removeFirstMetricsServingCert]
    by_cases hw : w.name = "metrics-serving-cert"
    · rw [if_pos hw]
      cases List.mem_cons.mp hm with
      | inl he => rw [he] at hname; exact absurd hw hname
      | inr h2 => exact h2
    · rw [if_neg hw]
      cases List.mem_cons.mp hm with
      | inl he => rw [he]; exact List.mem_cons_self _ _
      | inr h2 => exact List.mem_cons_of_mem _ (ih h2)

theorem removeFirstMSC_subset {v : Volume} {l : List Volume}
    (hm : v ∈ removeFirstMetricsServingCert l) : v ∈ l := by
  induction l with
  | nil => cases hm
  | cons w ws ih =>
    simp only [removeFirstMetricsServingCert] at hm
    by_cases hw : w.name = "metrics-serving-cert"
    · rw [if_pos hw] at hm
      exact List.mem_cons_of_mem _ hm
    · rw [if_neg hw] at hm
      cases List.mem_cons.mp hm with
      | inl he => rw [he]; exact List.mem_cons_self _ _
      | inr h2 => exact List.mem_cons_of_mem _ (ih h2)

/-- C7: the metrics-serving-cert step of `withHypershiftDeploymentHook`
removes exactly the first volume of that name: a list holding at least two
such volumes decomposes as `pre ++ v :: post` with `v` the first match, and
the step returns `pre ++ post`, preserving everything else in order; a list
with no such volume is returned unchanged. -/
theorem C7_remove_first_metrics_serving_cert (l : List Volume) :
    (2 ≤ (l.filter fun v => v.name = "metrics-serving-cert").length →
      ∃ pre v post, l = pre ++ v :: post ∧ v.name = "metrics-serving-cert" ∧
        (∀ u ∈ pre, u.name ≠ "metrics-serving-cert") ∧
        removeFirstMetricsServingCert l = pre ++ post ∧
        ((removeFirstMetricsServingCert l).filter
            fun v => v.name = "metrics-serving-cert").length =
          (l.filter fun v => v.name = "metrics-serving-cert").length - 1) ∧
    ((∀ v ∈ l, v.name ≠ "metrics-serving-cert") →
      removeFirstMetricsServingCert l = l) := by
  constructor
  · intro hlen
    have hnil : (l.filter fun v => v.name = "metrics-serving-cert") ≠ [] :=
      List.ne_nil_of_length_pos (by omega)
    rcases List.exists_mem_of_ne_nil _ hnil with ⟨x, hx⟩
    have hx2 := List.mem_filter.mp hx
    have hmem : ∃ v ∈ l, v.name = "metrics-serving-cert" :=
      ⟨x, hx2.1, by simpa using hx2.2⟩
    rcases removeFirstMSC_decomp hmem with ⟨pre, v, post, hl, hname, hpre, hrem⟩
    refine ⟨pre, v, post, hl, hname, hpre, hrem, ?_⟩
    have hfpre : pre.filter (fun v => v.name = "metrics-serving-cert") = [] := by
      rw [List.filter_eq_nil_iff]
      intro u hu
      simpa using hpre u hu
    rw [hrem, hl]
    simp [List.filter_append, hfpre, List.filter_cons, hname]
  · exact removeFirstMSC_of_absent

def c7TwoCertList : List Volume :=
  [{ name := "metrics-serving-cert", source := VolumeSource.other "first" },
   { name := "bound-sa-token", source := VolumeSource.other "sa" },
   { name := "metrics-serving-cert", source := VolumeSource.other "second" }]

def c7NoCertList : List Volume :=
  [{ name := "bound-sa-token", source := VolumeSource.other "sa" }]

theorem C7_remove_first_metrics_serving_cert_witness :
    (∃ pre v post, c7TwoCertList = pre ++ v :: post ∧
      v.name = "metrics-serving-cert" ∧
      (∀ u ∈ pre, u.name ≠ "metrics-serving-cert") ∧
      removeFirstMetricsServingCert c7TwoCertList = pre ++ post ∧
      ((removeFirstMetricsServingCert c7TwoCertList).filter
          fun v => v.name = "metrics-serving-cert").length =
        (c7TwoCertList.filter fun v => v.name = "metrics-serving-cert").length - 1) ∧
    removeFirstMetricsServingCert c7NoCertList = c7NoCertList :=
  ⟨(C7_remove_first_metrics_serving_cert c7TwoCertList).1 (by decide),
   (C7_remove_first_metrics_serving_cert c7NoCertList).2 (by decide)⟩

/-! ## C2 and C10 -/

def awsCABundleEnvVar : EnvVar :=
  { name := "AWS_CA_BUNDLE", value := "/etc/ca/ca-bundle.pem" }

def caBundleVolumeMount : VolumeMount :=
  { name := "ca-bundle", mountPath := "/etc/ca", readOnly := true }

/-- The `csi-driver` container after `withCustomAWSCABundle` wires in the
bundle: env var and read-only mount appended. -/
def driverWithCABundle (c : Container) : Container :=
  { c with
    env := c.env ++ [awsCABundleEnvVar],
    volumeMounts := c.volumeMounts ++ [caBundleVolumeMount] }

theorem addCABundleToDriver_of_mem :
    ∀ (cs : List Container), (∃ c ∈ cs, c.name = "csi-driver") →
      ∃ cs1, addCABundleToDriver cs = some cs1 ∧
        ∃ c1 ∈ cs1, c1.name = "csi-driver" ∧
          awsCABundleEnvVar ∈ c1.env ∧ caBundleVolumeMount ∈ c1.volumeMounts := by
  intro cs
  induction cs with
  | nil =>
    rintro ⟨c, hc, _⟩
    cases hc
  | cons c rest ih =>
    rintro ⟨c0, hc0, hname⟩
    by_cases hc : c.name = "csi-driver"
    · refine ⟨driverWithCABundle c :: rest, ?_, ?_⟩
      · simp only [addCABundleToDriver, if_pos hc]
        rfl
      · refine ⟨driverWithCABundle c, List.mem_cons_self _ _, hc, ?_, ?_⟩
        · show awsCABundleEnvVar ∈ c.env ++ [awsCABundleEnvVar]
          simp
        · show caBundleVolumeMount ∈ c.volumeMounts ++ [caBundleVolumeMount]
          simp
    · have h2 : ∃ x ∈ rest, x.name = "csi-driver" := by
        cases List.mem_cons.mp hc0 with
        | inl he => rw [he] at hname; exact absurd hname hc
        | inr hm => exact ⟨c0, hm, hname⟩
      rcases ih h2 with ⟨cs1, hrec, c1, hc1, hprops⟩
      exact ⟨c :: cs1, by simp only [addCABundleToDriver, if_neg hc, hrec],
        c1, List.mem_cons_of_mem _ hc1, hprops⟩

theorem addCABundleToDriver_of_absent :
    ∀ (cs : List Container), (∀ c ∈ cs, c.name ≠ "csi-driver") →
      addCABundleToDriver cs = none := by
  intro cs
  induction cs with
  | nil => intro _; rfl
  | cons c rest ih =>
    intro h
    have hc : c.name ≠ "csi-driver" := h c (List.mem_cons_self c rest)
    have hrec := ih fun x hx => h x (List.mem_cons_of_mem _ hx)
    simp only [addCABundleToDriver, if_neg hc, hrec]

theorem caBundleConfigName_ne_empty (isHypershift : Bool) :
    caBundleConfigName isHypershift ≠ "" := by
  cases isHypershift <;> simp [caBundleConfigName, cloudConfigName]

/-- C2: the CA-bundle hook behaves in exactly three cases on a deployment
holding a `csi-driver` container: absent cloud-config ConfigMap ⇒ unchanged
deployment and no error; ConfigMap present without the `ca-bundle.pem` key ⇒
same; ConfigMap and key present ⇒ no error, the `ca-bundle` volume backed by
that ConfigMap is appended, and the `csi-driver` container gains
`AWS_CA_BUNDLE=/etc/ca/ca-bundle.pem` and a read-only `ca-bundle` mount at
`/etc/ca`. -/
theorem C2_ca_bundle_hook_cases (isHypershift : Bool) (cl : ConfigMapLister)
    (d : Deployment) :
    (cl (caBundleConfigName isHypershift) = GetResult.notFound →
      withCustomAWSCABundle isHypershift cl d = (d, none)) ∧
    (∀ cm : ConfigMap, cl (caBundleConfigName isHypershift) = GetResult.found cm →
      cm.data.lookup caBundleKey = none →
      withCustomAWSCABundle isHypershift cl d = (d, none)) ∧
    (∀ (cm : ConfigMap) (pem : String),
      cl (caBundleConfigName isHypershift) = GetResult.found cm →
      cm.data.lookup caBundleKey = some pem →
      (∃ c ∈ d.podSpec.containers, c.name = "csi-driver") →
      ∃ d1, withCustomAWSCABundle isHypershift cl d = (d1, none) ∧
        d1.podSpec.volumes = d.podSpec.volumes ++
          [{ name := "ca-bundle",
             source := VolumeSource.configMap (caBundleConfigName isHypershift) }] ∧
        ∃ c ∈ d1.podSpec.containers, c.name = "csi-driver" ∧
          awsCABundleEnvVar ∈ c.env ∧ caBundleVolumeMount ∈ c.volumeMounts) := by
  refine ⟨?_, ?_, ?_⟩
  · intro h
    simp [withCustomAWSCABundle, customAWSCABundle, h]
  · intro cm hfound hlookup
    simp [withCustomAWSCABundle, customAWSCABundle, hfound, hlookup]
  · intro cm pem hfound hlookup hdriver
    have hca : customAWSCABundle isHypershift cl =
        Except.ok (caBundleConfigName isHypershift) := by
      simp [customAWSCABundle, hfound, hlookup]
    have hne := caBundleConfigName_ne_empty isHypershift
    rcases addCABundleToDriver_of_mem d.podSpec.containers hdriver with
      ⟨cs1, hadd, hc1⟩
    have hrun : withCustomAWSCABundle isHypershift cl d =
        ({ d with podSpec := { d.podSpec with
            containers := cs1,
            volumes := d.podSpec.volumes ++
              [{ name := "ca-bundle",
                 source := VolumeSource.configMap (caBundleConfigName isHypershift) }] } },
          none) := by
      simp [withCustomAWSCABundle, hca, hne, hadd]
    exact ⟨_, hrun, rfl, hc1⟩

def c2DriverContainer : Container := { name := "csi-driver" }

def c2Base : Deployment := { podSpec := { containers := [c2DriverContainer] } }

def c2ConfigMap : ConfigMap :=
  { name := "kube-cloud-config", data := [("ca-bundle.pem", "PEM")] }

def c2FoundLister : ConfigMapLister := fun _ => GetResult.found c2ConfigMap

theorem C2_ca_bundle_hook_cases_witness :
    withCustomAWSCABundle false witnessConfigMapLister c2Base = (c2Base, none) ∧
    ∃ d1, withCustomAWSCABundle false c2FoundLister c2Base = (d1, none) ∧
      d1.podSpec.volumes = c2Base.podSpec.volumes ++
        [{ name := "ca-bundle",
           source := VolumeSource.configMap (caBundleConfigName false) }] ∧
      ∃ c ∈ d1.podSpec.containers, c.name = "csi-driver" ∧
        awsCABundleEnvVar ∈ c.env ∧ caBundleVolumeMount ∈ c.volumeMounts :=
  ⟨(C2_ca_bundle_hook_cases false witnessConfigMapLister c2Base).1 rfl,
   (C2_ca_bundle_hook_cases false c2FoundLister c2Base).2.2 c2ConfigMap "PEM"
     rfl (by decide) (by decide)⟩

/-- C10: when a custom CA bundle is configured but the deployment has no
`csi-driver` container, `withCustomAWSCABundle` returns the missing-container
error having already appended the `ca-bundle` volume, so the deployment it
leaves behind differs from its input. -/
theorem C10_ca_bundle_error_mutates (isHypershift : Bool) (cl : ConfigMapLister)
    (d : Deployment) (cm : ConfigMap) (pem : String)
    (hfound : cl (caBundleConfigName isHypershift) = GetResult.found cm)
    (hkey : cm.data.lookup caBundleKey = some pem)
    (hnodriver : ∀ c ∈ d.podSpec.containers, c.name ≠ "csi-driver") :
    ∃ d1, withCustomAWSCABundle isHypershift cl d =
        (d1, some "could not use custom CA bundle because the csi-driver container is missing from the deployment") ∧
      d1.podSpec.volumes = d.podSpec.volumes ++
        [{ name := "ca-bundle",
           source := VolumeSource.configMap (caBundleConfigName isHypershift) }] ∧
      d1 ≠ d := by
  have hca : customAWSCABundle isHypershift cl =
      Except.ok (caBundleConfigName isHypershift) := by
    simp [customAWSCABundle, hfound, hkey]
  have hne := caBundleConfigName_ne_empty isHypershift
  have hnone := addCABundleToDriver_of_absent d.podSpec.containers hnodriver
  refine ⟨{ d with podSpec := { d.podSpec with
      volumes := d.podSpec.volumes ++
        [{ name := "ca-bundle",
           source := VolumeSource.configMap (caBundleConfigName isHypershift) }] } },
    ?_, rfl, ?_⟩
  · simp [withCustomAWSCABundle, hca, hne, hnone]
  · intro heq
    have hlen := congrArg (fun x => x.podSpec.volumes.length) heq
    simp at hlen

def c10Base : Deployment :=
  { podSpec := { containers := [{ name := "csi-attacher" }] } }

theorem C10_ca_bundle_error_mutates_witness :
    ∃ d1, withCustomAWSCABundle false c2FoundLister c10Base =
        (d1, some "could not use custom CA bundle because the csi-driver container is missing from the deployment") ∧
      d1.podSpec.volumes = c10Base.podSpec.volumes ++
        [{ name := "ca-bundle",
           source := VolumeSource.configMap (caBundleConfigName false) }] ∧
      d1 ≠ c10Base :=
  C10_ca_bundle_error_mutates false c2FoundLister c10Base c2ConfigMap "PEM"
    rfl (by decide) (by decide)

/-! ## C1 -/

theorem hookedSidecarName (c : Container) :
    (if c.name ∈ hypershiftKubeconfigSidecars then injectHostedKubeconfig c else c).name =
      c.name := by
  by_cases h : c.name ∈ hypershiftKubeconfigSidecars
  · rw [if_pos h]
    rfl
  · rw [if_neg h]

theorem hostedContainers_no_proxy {hypershiftImage : String} {cs : List Container} :
    ∀ c ∈ hostedContainers hypershiftImage cs, c.name ≠ "driver-kube-rbac-proxy" := by
  intro c hc
  rcases List.mem_append.mp hc with hc2 | hc2
  · rcases List.mem_map.mp hc2 with ⟨c0, hc0, hce⟩
    have hdeny : c0.name ∉ hypershiftRemovedSidecars := by
      have := (List.mem_filter.mp hc0).2
      simpa using this
    rw [← hce, hookedSidecarName]
    intro hn
    apply hdeny
    rw [hn]
    decide
  · have he : c = tokenMinterContainer hypershiftImage := by simpa using hc2
    rw [he]
    show "token-minter" ≠ "driver-kube-rbac-proxy"
    decide

theorem hostedContainers_provisioner {hypershiftImage : String} {cs : List Container}
    {c : Container} (hc : c ∈ cs) (hname : c.name = "csi-provisioner") :
    injectHostedKubeconfig c ∈ hostedContainers hypershiftImage cs := by
  apply List.mem_append_left
  apply List.mem_map.mpr
  refine ⟨c, List.mem_filter.mpr ⟨hc, ?_⟩, ?_⟩
  · rw [hname]
    decide
  · have hallow : c.name ∈ hypershiftKubeconfigSidecars := by
      rw [hname]
      decide
    rw [if_pos hallow]

theorem hostedVolumes_bound_sa_mem {vols : List Volume} {v : Volume}
    (hv : v ∈ vols) (hname : v.name = "bound-sa-token") :
    { v with source := VolumeSource.emptyDir StorageMedium.memory } ∈ hostedVolumes vols := by
  apply mem_removeFirstMSC
  · apply List.mem_map.mpr
    refine ⟨v, List.mem_append_left _ hv, ?_⟩
    rw [if_pos hname]
  · show v.name ≠ "metrics-serving-cert"
    rw [hname]
    decide

theorem hostedVolumes_bound_sa_source {vols : List Volume} :
    ∀ v ∈ hostedVolumes vols, v.name = "bound-sa-token" →
      v.source = VolumeSource.emptyDir StorageMedium.memory := by
  intro v hv hname
  have hv2 : v ∈ replaceBoundSaToken (vols ++ [hostedKubeconfigVolume]) :=
    removeFirstMSC_subset hv
  rcases List.mem_map.mp hv2 with ⟨u, _, hfu⟩
  by_cases hun : u.name = "bound-sa-token"
  · rw [← hfu, if_pos hun]
  · rw [← hfu, if_neg hun] at hname
    exact absurd hname hun

/-- C1: applying the hosted-topology hooks (`withHypershiftDeploymentHook`
then `withHypershiftReplicasHook`, both under `isHypershift = true`) to a
base deployment holding a `driver-kube-rbac-proxy` container, a
`csi-provisioner` container and a `bound-sa-token` volume yields, without
error: no `driver-kube-rbac-proxy` container; a `csi-provisioner` container
whose args end with an appended `--kubeconfig=$(KUBECONFIG)`, whose env
contains `KUBECONFIG=/etc/hosted-kubernetes/kubeconfig` and whose mounts
contain `hosted-kubeconfig` at `/etc/hosted-kubernetes`; every
`bound-sa-token` volume backed by a memory EmptyDir; replica count 1; and
priority class `hypershift-control-plane`. -/
theorem C1_hosted_hooks (hypershiftImage : String) (d : Deployment)
    (_hproxy : ∃ c ∈ d.podSpec.containers, c.name = "driver-kube-rbac-proxy")
    (hprov : ∃ c ∈ d.podSpec.containers, c.name = "csi-provisioner")
    (hsa : ∃ v ∈ d.podSpec.volumes, v.name = "bound-sa-token") :
    ∃ d1 d2,
      withHypershiftDeploymentHook true hypershiftImage d = (d1, none) ∧
      withHypershiftReplicasHook d1 = (d2, none) ∧
      (∀ c ∈ d2.podSpec.containers, c.name ≠ "driver-kube-rbac-proxy") ∧
      (∃ c ∈ d2.podSpec.containers, c.name = "csi-provisioner" ∧
        (∃ rest, c.args = rest ++ ["--kubeconfig=$(KUBECONFIG)"]) ∧
        hostedKubeconfigEnvVar ∈ c.env ∧ hostedKubeconfigMount ∈ c.volumeMounts) ∧
      (∃ v ∈ d2.podSpec.volumes, v.name = "bound-sa-token") ∧
      (∀ v ∈ d2.podSpec.volumes, v.name = "bound-sa-token" →
        v.source = VolumeSource.emptyDir StorageMedium.memory) ∧
      d2.replicas = some 1 ∧
      d2.podSpec.priorityClassName = hypershiftPriorityClass := by
  refine ⟨_, _, rfl, rfl, ?_, ?_, ?_, ?_, rfl, rfl⟩
  · exact hostedContainers_no_proxy
  · rcases hprov with ⟨c, hc, hname⟩
    refine ⟨injectHostedKubeconfig c, hostedContainers_provisioner hc hname, hname, ?_, ?_, ?_⟩
    · exact ⟨c.args, rfl⟩
    · show hostedKubeconfigEnvVar ∈ c.env ++ [hostedKubeconfigEnvVar]
      simp
    · show hostedKubeconfigMount ∈ c.volumeMounts ++ [hostedKubeconfigMount]
      simp
  · rcases hsa with ⟨v, hv, hname⟩
    exact ⟨{ v with source := VolumeSource.emptyDir StorageMedium.memory },
      hostedVolumes_bound_sa_mem hv hname, hname⟩
  · exact hostedVolumes_bound_sa_source

def c1Base : Deployment :=
  { podSpec :=
    { containers :=
        [{ name := "driver-kube-rbac-proxy" },
         { name := "csi-provisioner", args := ["--v=2"] },
         { name := "csi-driver" }],
      volumes :=
        [{ name := "bound-sa-token", source := VolumeSource.other "projected" },
         { name := "metrics-serving-cert", source := VolumeSource.other "cert" }] } }

theorem C1_hosted_hooks_witness :
    (∃ c ∈ c1Base.podSpec.containers, c.name = "driver-kube-rbac-proxy") ∧
    ∃ d1 d2,
      withHypershiftDeploymentHook true witnessImage c1Base = (d1, none) ∧
      withHypershiftReplicasHook d1 = (d2, none) ∧
      (∀ c ∈ d2.podSpec.containers, c.name ≠ "driver-kube-rbac-proxy") ∧
      (∃ c ∈ d2.podSpec.containers, c.name = "csi-provisioner" ∧
        (∃ rest, c.args = rest ++ ["--kubeconfig=$(KUBECONFIG)"]) ∧
        hostedKubeconfigEnvVar ∈ c.env ∧ hostedKubeconfigMount ∈ c.volumeMounts) ∧
      (∃ v ∈ d2.podSpec.volumes, v.name = "bound-sa-token") ∧
      (∀ v ∈ d2.podSpec.volumes, v.name = "bound-sa-token" →
        v.source = VolumeSource.emptyDir StorageMedium.memory) ∧
      d2.replicas = some 1 ∧
      d2.podSpec.priorityClassName = hypershiftPriorityClass :=
  ⟨by decide,
   C1_hosted_hooks witnessImage c1Base (by decide) (by decide) (by decide)⟩

/-! ## C3 -/

def regionEnvVar : EnvVar := { name := "AWS_REGION", value := "us-east-1" }

/-- The container list after `withAWSRegion` then `withCustomTags` ran with
region `us-east-1` and tag list `[t1, t2]`. -/
def regionAndTagsContainers (t1 t2 : AWSResourceTag) (cs : List Container) :
    List Container :=
  appendArgToCsiDriver (extraTagsArgument [t1, t2]) (appendEnvToCsiDriver regionEnvVar cs)

theorem extraTagsArgument_pair (t1 t2 : AWSResourceTag) :
    extraTagsArgument [t1, t2] =
      "--extra-tags=" ++ ((t1.key ++ "=" ++ t1.value) ++ "," ++ (t2.key ++ "=" ++ t2.value)) :=
  rfl

/-- C3 (amended): with infrastructure region `us-east-1` and two resource
tags, `withAWSRegion` then `withCustomTags` return no error, and — provided
the base `csi-driver` container's args do not already contain the built
`--extra-tags=` argument — the `csi-driver` container's env contains
`AWS_REGION=us-east-1` and its args contain exactly one occurrence of
`--extra-tags=k1=v1,k2=v2`, the pairs comma-joined in tag-list order. -/
theorem C3_region_and_tags (il : InfraLister) (d : Deployment)
    (infra : Infrastructure) (ps : PlatformStatus) (aws : AWSPlatformStatus)
    (t1 t2 : AWSResourceTag)
    (hfound : il infrastructureName = GetResult.found infra)
    (hps : infra.platformStatus = some ps)
    (haws : ps.aws = some aws)
    (hregion : aws.region = "us-east-1")
    (htags : aws.resourceTags = [t1, t2])
    (hdriver : ∃ c ∈ d.podSpec.containers, c.name = "csi-driver")
    (hfresh : ∀ c ∈ d.podSpec.containers, c.name = "csi-driver" →
      extraTagsArgument [t1, t2] ∉ c.args) :
    (withAWSRegion il d).2 = none ∧
    (withCustomTags il (withAWSRegion il d).1).2 = none ∧
    extraTagsArgument [t1, t2] =
      "--extra-tags=" ++ ((t1.key ++ "=" ++ t1.value) ++ "," ++ (t2.key ++ "=" ++ t2.value)) ∧
    ∃ c ∈ (withCustomTags il (withAWSRegion il d).1).1.podSpec.containers,
      c.name = "csi-driver" ∧ regionEnvVar ∈ c.env ∧
      c.args.count (extraTagsArgument [t1, t2]) = 1 := by
  have hR1 : withAWSRegion il d =
      ({ d with podSpec :=
        { d.podSpec with containers := appendEnvToCsiDriver regionEnvVar d.podSpec.containers } },
        none) := by
    simp [withAWSRegion, hfound, hps, haws, hregion, regionEnvVar]
  have hR2 : withCustomTags il (withAWSRegion il d).1 =
      ({ d with podSpec :=
        { d.podSpec with containers := regionAndTagsContainers t1 t2 d.podSpec.containers } },
        none) := by
    rw [hR1]
    simp [withCustomTags, hfound, hps, haws, htags, regionAndTagsContainers]
  rcases hdriver with ⟨c0, hc0, hcname⟩
  have hnotmem : extraTagsArgument [t1, t2] ∉ c0.args := hfresh c0 hc0 hcname
  have hm1 : ({ c0 with env := c0.env ++ [regionEnvVar] } : Container) ∈
      appendEnvToCsiDriver regionEnvVar d.podSpec.containers :=
    List.mem_map.mpr ⟨c0, hc0, by rw [if_pos hcname]⟩
  have hm2 : ({ c0 with
      env := c0.env ++ [regionEnvVar],
      args := c0.args ++ [extraTagsArgument [t1, t2]] } : Container) ∈
      regionAndTagsContainers t1 t2 d.podSpec.containers :=
    List.mem_map.mpr ⟨{ c0 with env := c0.env ++ [regionEnvVar] }, hm1,
      by rw [if_pos (show ({ c0 with env := c0.env ++ [regionEnvVar] } : Container).name =
        "csi-driver" from hcname)]⟩
  have henv : regionEnvVar ∈ c0.env ++ [regionEnvVar] := by simp
  have hcnt : (c0.args ++ [extraTagsArgument [t1, t2]]).count (extraTagsArgument [t1, t2]) = 1 := by
    rw [List.count_append, List.count_eq_zero.mpr hnotmem]
    simp
  refine ⟨by rw [hR1], by rw [hR2], rfl, ?_⟩
  rw [hR2]
  exact ⟨_, hm2, hcname, henv, hcnt⟩

def c3Tag1 : AWSResourceTag := { key := "a", value := "b" }

def c3Tag2 : AWSResourceTag := { key := "c", value := "d" }

def c3AWS : AWSPlatformStatus :=
  { region := "us-east-1", resourceTags := [c3Tag1, c3Tag2], serviceEndpoints := [] }

def c3PS : PlatformStatus := { aws := some c3AWS }

def c3Infra : Infrastructure := { platformStatus := some c3PS }

def c3Lister : InfraLister := fun _ => GetResult.found c3Infra

/-- A base deployment whose `csi-driver` args already hold the exact
`--extra-tags=` argument the hook will build. -/
def c3DirtyBase : Deployment :=
  { podSpec :=
    { containers := [{ name := "csi-driver", args := [extraTagsArgument [c3Tag1, c3Tag2]] }] } }

/-- C3 counterexample: on a base deployment whose `csi-driver` args already
contain `--extra-tags=a=b,c=d`, both hooks return no error yet the final
args hold that argument twice, so they do not contain exactly one such
argument as the claim states. -/
theorem C3_region_and_tags_counterexample :
    (withAWSRegion c3Lister c3DirtyBase).2 = none ∧
    (withCustomTags c3Lister (withAWSRegion c3Lister c3DirtyBase).1).2 = none ∧
    ((withCustomTags c3Lister (withAWSRegion c3Lister c3DirtyBase).1).1.podSpec.containers.map
      fun c => c.args.count (extraTagsArgument [c3Tag1, c3Tag2])) = [2] := by
  decide

def c3CleanBase : Deployment :=
  { podSpec := { containers := [{ name := "csi-driver", args := ["--v=2"] }] } }

theorem C3_region_and_tags_witness :
    (withAWSRegion c3Lister c3CleanBase).2 = none ∧
    (withCustomTags c3Lister (withAWSRegion c3Lister c3CleanBase).1).2 = none ∧
    extraTagsArgument [c3Tag1, c3Tag2] =
      "--extra-tags=" ++
        ((c3Tag1.key ++ "=" ++ c3Tag1.value) ++ "," ++ (c3Tag2.key ++ "=" ++ c3Tag2.value)) ∧
    ∃ c ∈ (withCustomTags c3Lister (withAWSRegion c3Lister c3CleanBase).1).1.podSpec.containers,
      c.name = "csi-driver" ∧ regionEnvVar ∈ c.env ∧
      c.args.count (extraTagsArgument [c3Tag1, c3Tag2]) = 1 :=
  C3_region_and_tags c3Lister c3CleanBase c3Infra c3PS c3AWS
    c3Tag1 c3Tag2 rfl rfl rfl rfl rfl (by decide) (by decide)

end AwsEbsCsiOperator
